import Mathlib

/-
Shallow embedding of the pending-item staging, itinerary-save reconciliation
and attraction-search normalization logic of
`src/frontend/src/pages/Search.tsx`.

Modelling conventions:
- Optional record fields of the heterogeneous JS result records become
  `Option String` / `Option Int`; JavaScript truthiness of such a field is
  `strTruthy` / `intTruthy` (absent, empty string and zero are falsy), so the
  JS `a || b` fallback operator becomes `jsOrStr` / `jsOrInt`.
- `localStorage` under the key `planit_pending_items` is modelled
  algebraically by `PendingStore`: `absent` is a missing (or empty, hence
  falsy) stored string, `wellFormed l` is the string `JSON.stringify l`
  (which round-trips through `JSON.parse`), and `corrupt` is a stored string
  that is not valid JSON, on which `JSON.parse` throws — embedded as
  `Except.error JsError.jsonParse`.
- The draft-context key `planit_current_itinerary` and the last-saved key
  `planit_saved_data` are modelled as parsed-or-absent (`Option _`).
- The two network calls of `handleSaveAllToItinerary` (itinerary creation
  and item save) and the `loadItineraries` refresh are awaited sequentially;
  their responses are passed in as oracle arguments and the calls actually
  issued are returned as an ordered `List NetCall` log.
- `navigate(/itineraries/id)` is modelled by the outcome constructor
  `SaveOutcome.saved id` signalling the caller to navigate to that
  itinerary's detail view.
-/

namespace PlanIt

/-- JavaScript truthiness of an optional string field: present and non-empty.
(`undefined`, `null` and `""` are falsy.) -/
def strTruthy : Option String → Bool
  | none => false
  | some s => !s.isEmpty

/-- JavaScript truthiness of an optional numeric field: present and non-zero. -/
def intTruthy : Option Int → Bool
  | none => false
  | some n => n != 0

/-- JS `a || b` on optional string-valued fields: `a` when truthy, else `b`. -/
def jsOrStr (a b : Option String) : Option String :=
  if strTruthy a then a else b

/-- JS `a || b` on optional number-valued fields: `a` when truthy, else `b`. -/
def jsOrInt (a b : Option Int) : Option Int :=
  if intTruthy a then a else b

/-- The heterogeneous search-result record (`SearchResult` in `Search.tsx`,
with the extra duck-typed fields the page reads off `any`-typed records:
`address` and the image field candidates). All fields optional. -/
structure SearchResult where
  name : Option String := none
  title : Option String := none
  description : Option String := none
  price : Option Int := none
  price_per_night : Option Int := none
  rating : Option Int := none
  xid : Option String := none
  hotel_id : Option String := none
  hotel_key : Option String := none
  id : Option String := none
  address : Option String := none
  image_url : Option String := none
  image : Option String := none
  thumbnail : Option String := none
  photo : Option String := none
  deriving DecidableEq

/-- The `type` discriminant of a pending item. -/
inductive ItemType
  | flight
  | hotel
  | attraction
  deriving DecidableEq

/-- A staged item (`PendingItem` in `Search.tsx`). -/
structure PendingItem where
  type : ItemType
  data : SearchResult
  addedAt : String := ""
  deriving DecidableEq

/-- A JavaScript exception relevant to the store: `JSON.parse` throwing a
`SyntaxError` on a non-JSON stored string. -/
inductive JsError
  | jsonParse
  deriving DecidableEq

/-- The state of `localStorage[STORAGE_KEY]` (`planit_pending_items`):
missing (or empty-string, which the code treats identically because `""` is
falsy), a well-formed JSON serialization of a pending-item list, or a stored
string that is not valid JSON. -/
inductive PendingStore
  | absent
  | wellFormed (items : List PendingItem)
  | corrupt
  deriving DecidableEq

/-- `getPendingItems` (`Search.tsx` lines 40-43):
`const stored = localStorage.getItem(STORAGE_KEY); return stored ? JSON.parse(stored) : [];`
A missing/falsy stored value yields `[]`; a well-formed value parses back;
a corrupt value makes `JSON.parse` throw, which nothing catches. -/
def getPendingItems : PendingStore → Except JsError (List PendingItem)
  | .absent => .ok []
  | .wellFormed l => .ok l
  | .corrupt => .error .jsonParse

/-- `addPendingItem` (`Search.tsx` lines 45-49): read the current list
(propagating a parse exception), push the new item at the end, store back. -/
def addPendingItem (s : PendingStore) (item : PendingItem) :
    Except JsError PendingStore := do
  let items ← getPendingItems s
  pure (.wellFormed (items ++ [item]))

/-- `clearPendingItems` (`Search.tsx` lines 51-53): `localStorage.removeItem`. -/
def clearPendingItems (_ : PendingStore) : PendingStore :=
  .absent

/-- A sequence of `addPendingItem` calls, left to right. -/
def addAll (s : PendingStore) (xs : List PendingItem) :
    Except JsError PendingStore :=
  match xs with
  | [] => .ok s
  | x :: rest =>
    match addPendingItem s x with
    | .ok s1 => addAll s1 rest
    | .error e => .error e

/-- `Array.prototype.splice(i, 1)` restricted to its removal effect: a
negative start index counts from the end clamped at 0, a start index at or
beyond the length removes nothing. -/
def spliceRemoveOne (l : List α) (i : Int) : List α :=
  let len : Int := l.length
  let actualStart : Nat :=
    if i < 0 then (max (len + i) 0).toNat else (min i len).toNat
  l.take actualStart ++ l.drop (actualStart + 1)

/-- `removePendingItem` (`Search.tsx` lines 445-450): read the current list
(propagating a parse exception), `items.splice(index, 1)`, store back. -/
def removePendingItem (s : PendingStore) (index : Int) :
    Except JsError PendingStore := do
  let items ← getPendingItems s
  pure (.wellFormed (spliceRemoveOne items index))

/-- The draft trip context stored under `planit_current_itinerary`
(`currentItinerary` in `Search.tsx`). -/
structure CurrentItinerary where
  itinerary_id : Option Int := none
  title : Option String := none
  origin : Option String := none
  destination_city : Option String := none
  departure_date : Option String := none
  return_date : Option String := none
  deriving DecidableEq

/-- The save endpoint's response body: an optional `itinerary_id` own
property (which an object spread would copy over) and the opaque rest of
the payload. -/
structure SaveResp where
  itinerary_id : Option Int := none
  body : String := ""
  deriving DecidableEq

/-- The record written to `planit_saved_data`. -/
structure SavedData where
  itinerary_id : Int
  body : String
  deriving DecidableEq

/-- `{ itinerary_id: itineraryId, ...response.data }` (`Search.tsx` lines
423-426): the spread comes second, so an `itinerary_id` own property of the
response overrides the local target id. -/
def mergeSaved (itineraryId : Int) (resp : SaveResp) : SavedData :=
  { itinerary_id := resp.itinerary_id.getD itineraryId
  , body := resp.body }

/-- A normalized non-flight payload entry `{ name, price, type }`. -/
structure PayloadItem where
  name : Option String
  price : Int
  type : ItemType
  deriving DecidableEq

/-- The body posted to `/itineraries/{id}/save`. -/
structure SavePayload where
  flights : List SearchResult
  items : List PayloadItem
  deriving DecidableEq

/-- The projection of one non-flight pending item (`Search.tsx` lines
411-415): `name: item.data.name || item.data.title`,
`price: item.data.price || item.data.price_per_night || 0`, `type: item.type`. -/
def projectItem (item : PendingItem) : PayloadItem :=
  { name := jsOrStr item.data.name item.data.title
  , price := (jsOrInt item.data.price item.data.price_per_night).getD 0
  , type := item.type }

/-- Payload construction (`Search.tsx` lines 410-415): flights are forwarded
as their raw `data`, every other item is projected by `projectItem`. -/
def buildSavePayload (pending : List PendingItem) : SavePayload :=
  { flights := (pending.filter (fun it => it.type == ItemType.flight)).map
      (fun it => it.data)
  , items := (pending.filter (fun it => !(it.type == ItemType.flight))).map
      projectItem }

/-- One network call issued by `handleSaveAllToItinerary`, in issue order. -/
inductive NetCall
  | createFromFlights (departure_date return_date : Option String)
      (title : Option String)
  | createEmpty
  | getItineraries
  | save (itineraryId : Int) (payload : SavePayload)
  deriving DecidableEq

/-- The observable outcome of one `handleSaveAllToItinerary` invocation.
`saved id` additionally signals the caller to navigate to
`/itineraries/id`. -/
inductive SaveOutcome
  | noPendingItems
  | createFailed (msg : String)
  | saveFailed (msg : String)
  | saved (itineraryId : Int)
  deriving DecidableEq

/-- The component and storage state `handleSaveAllToItinerary` reads and
writes: the React `pendingItems` state, the three durable keyed records,
the selected itinerary id, the React draft-context mirror, the loaded
itinerary count (used for the default title), and the message banners. -/
structure AppState where
  pendingItems : List PendingItem
  pendingStore : PendingStore
  currentItineraryStore : Option CurrentItinerary
  savedDataStore : Option SavedData
  selectedItineraryId : Option Int
  currentItinerary : Option CurrentItinerary
  itinerariesCount : Nat
  error : String := ""
  successMessage : String := ""
  deriving DecidableEq

/-- `errorResponse.response?.data?.msg || fallback`: the optional server
message when truthy, else the fallback literal. -/
def errMsg (serverMsg : Option String) (fallback : String) : String :=
  (jsOrStr serverMsg (some fallback)).getD fallback

/-- The tail of `handleSaveAllToItinerary` from payload construction on
(`Search.tsx` lines 409-442): build the payload, post it to
`/itineraries/{itineraryId}/save`; on failure set the error banner and keep
every store untouched; on success write the merged `planit_saved_data`
record, clear the pending store and its React mirror, remove the draft
context, set the success banner and signal navigation. -/
def submitSave (s : AppState) (itineraryId : Int) (prior : List NetCall)
    (saveResult : Except (Option String) SaveResp) :
    AppState × SaveOutcome × List NetCall :=
  let payload := buildSavePayload s.pendingItems
  let calls := prior ++ [NetCall.save itineraryId payload]
  match saveResult with
  | .error e =>
    ({ s with error := errMsg e "Failed to save items" },
     .saveFailed (errMsg e "Failed to save items"), calls)
  | .ok resp =>
    ({ s with
        savedDataStore := some (mergeSaved itineraryId resp)
        pendingStore := clearPendingItems s.pendingStore
        pendingItems := []
        currentItineraryStore := none
        currentItinerary := none
        successMessage := "All items saved to itinerary!" },
     .saved itineraryId, calls)

/-- `handleSaveAllToItinerary` (`Search.tsx` lines 349-443). Oracle
arguments: `createResult` is the creation call's response (error side
carries the optional server message), `loadResult` is the refreshed
itinerary count from `loadItineraries` (`none` when that call failed — its
failure is caught internally and ignored), `saveResult` is the save call's
response. Returns the new state, the outcome and the ordered log of network
calls actually issued. -/
def handleSaveAllToItinerary (s : AppState)
    (createResult : Except (Option String) Int)
    (loadResult : Option Nat)
    (saveResult : Except (Option String) SaveResp) :
    AppState × SaveOutcome × List NetCall :=
  if s.pendingItems.length == 0 then
    ({ s with error := "No pending items to save" }, .noPendingItems, [])
  else
    let s1 := { s with error := "" }
    if intTruthy s1.selectedItineraryId then
      submitSave s1 (s1.selectedItineraryId.getD 0) [] saveResult
    else
      let storedItinerary := s1.currentItineraryStore
      let createCall :=
        match storedItinerary with
        | some d =>
          if strTruthy d.departure_date && strTruthy d.return_date then
            NetCall.createFromFlights d.departure_date d.return_date
              (jsOrStr d.title none)
          else
            NetCall.createEmpty
        | none => NetCall.createEmpty
      match createResult with
      | .error e =>
        ({ s1 with error := errMsg e "Failed to create itinerary" },
         .createFailed (errMsg e "Failed to create itinerary"), [createCall])
      | .ok newId =>
        let title := (jsOrStr (storedItinerary.bind (fun d => d.title))
          (some ("Itinerary " ++ toString (s1.itinerariesCount + 1)))).getD ""
        let current : CurrentItinerary :=
          { itinerary_id := some newId
          , title := some title
          , origin := storedItinerary.bind (fun d => d.origin)
          , destination_city := storedItinerary.bind (fun d => d.destination_city)
          , departure_date := storedItinerary.bind (fun d => d.departure_date)
          , return_date := storedItinerary.bind (fun d => d.return_date) }
        let s2 := { s1 with
            currentItineraryStore := some current
            currentItinerary := some current
            selectedItineraryId := some newId
            itinerariesCount := loadResult.getD s1.itinerariesCount }
        submitSave s2 newId [createCall, NetCall.getItineraries] saveResult

/-- `isHotelLike` (`Search.tsx` lines 150-153): a null record is not
hotel-like; otherwise `!!(item.hotel_id || item.hotel_key ||
item.price_per_night || item.rating || item.address)`. -/
def isHotelLike (item : Option SearchResult) : Bool :=
  match item with
  | none => false
  | some it =>
    strTruthy it.hotel_id || strTruthy it.hotel_key ||
      intTruthy it.price_per_night || intTruthy it.rating ||
      strTruthy it.address

/-- `normalizeAttraction` (`Search.tsx` lines 156-163): null passes through;
otherwise copy the record, resolve `image_url` from the candidate chain
`image_url || image || thumbnail || photo || null` and `xid` from
`xid || id || xid`. -/
def normalizeAttraction (item : Option SearchResult) : Option SearchResult :=
  match item with
  | none => none
  | some it =>
    some { it with
      image_url := jsOrStr it.image_url (jsOrStr it.image
        (jsOrStr it.thumbnail (jsOrStr it.photo none)))
      xid :=
        if strTruthy it.xid then it.xid
        else if strTruthy it.id then it.id
        else it.xid }

/-- The shape of the attractions search response as the code inspects it:
either `response.data.attractions` is an array (of possibly-null records),
or the body lacks the expected attractions list. -/
inductive AttractionsResponse
  | withAttractions (raw : List (Option SearchResult))
  | unexpected
  deriving DecidableEq

/-- The attractions branch of `handleSearch` (`Search.tsx` lines 201-221):
normalize each record, filter out hotel-like ones, and compute the error
banner — the hotels-filtered notice exactly when the server returned
records but none survived, the unexpected-shape notice when the attractions
array is missing, and no error otherwise (the banner was reset to `""` at
the start of the search). Returns the result list and the error banner. -/
def handleAttractionsSearch (resp : AttractionsResponse) :
    List (Option SearchResult) × String :=
  match resp with
  | .withAttractions raw =>
    let normalized :=
      (raw.map normalizeAttraction).filter (fun it => !(isHotelLike it))
    (normalized,
      if normalized.length == 0 && 0 < raw.length then
        "Attractions endpoint returned results that appear to be hotels; none shown."
      else "")
  | .unexpected =>
    ([], "No attractions found (server returned unexpected data).")

/-- A concrete staged attraction used in concrete evaluations. -/
def examplePending : PendingItem :=
  { type := .attraction, data := { name := some "Louvre" } }

/-- The spec's example hotel item: `{type: hotel, data: {name: "Hotel A", price_per_night: 120}}`. -/
def exampleHotelA : PendingItem :=
  { type := .hotel
  , data := { name := some "Hotel A", price_per_night := some 120 } }

/-- The spec's example flight item (with some raw flight data). -/
def exampleFlight : PendingItem :=
  { type := .flight, data := { name := some "JFK-LHR", price := some 450 } }

/-- A staged hotel whose data carries both a truthy generic price and a
truthy nightly price, with different values. -/
def exampleHotelBoth : PendingItem :=
  { type := .hotel
  , data := { name := some "Hotel B", price := some 100
            , price_per_night := some 120 } }

/-- A hotel record whose generic price is zero (falsy) while the nightly
price is positive. -/
def exampleZeroPrice : SearchResult :=
  { name := some "Hotel Z", price := some 0, price_per_night := some 95 }

/-- A record whose name is the empty string (falsy) with a title present. -/
def exampleEmptyName : SearchResult :=
  { name := some "", title := some "Fallback Title", price := some 10 }

/-- A hotel-like record appearing in an attractions response. -/
def exampleHotelRecord : Option SearchResult :=
  some { name := some "Grand Hotel", hotel_id := some "h1"
       , price_per_night := some 120 }

/-- A draft context carrying both a departure and a return date and a title. -/
def exampleDraft : CurrentItinerary :=
  { title := some "Paris Trip"
  , departure_date := some "2026-01-01"
  , return_date := some "2026-01-08" }

/-- A concrete app state: one staged hotel, draft context present, no
itinerary selected. -/
def exampleState : AppState :=
  { pendingItems := [exampleHotelA]
  , pendingStore := .wellFormed [exampleHotelA]
  , currentItineraryStore := some exampleDraft
  , savedDataStore := none
  , selectedItineraryId := none
  , currentItinerary := some exampleDraft
  , itinerariesCount := 0 }

/-- The example state with an itinerary already selected. -/
def exampleStateSel : AppState :=
  { exampleState with selectedItineraryId := some 5 }

/-- The example state with nothing staged. -/
def exampleEmptyState : AppState :=
  { exampleState with pendingItems := [], pendingStore := .absent }

/-- Helper: a run of `addPendingItem` calls on a well-formed store appends
the added items in order. -/
theorem addAll_wellFormed (xs : List PendingItem) :
    ∀ l, addAll (PendingStore.wellFormed l) xs
      = Except.ok (PendingStore.wellFormed (l ++ xs)) := by
  induction xs with
  | nil => intro l; simp [addAll]
  | cons x rest ih =>
    intro l
    have h1 : addPendingItem (PendingStore.wellFormed l) x
        = Except.ok (PendingStore.wellFormed (l ++ [x])) := rfl
    simp [addAll, h1, ih]

/-- Helper: `splice(i, 1)` with a start index at or beyond the length
removes nothing. -/
theorem spliceRemoveOne_of_length_le (l : List PendingItem) (i : Int)
    (h : (l.length : Int) ≤ i) : spliceRemoveOne l i = l := by
  have hlen : (0 : Int) ≤ (l.length : Int) := Int.natCast_nonneg _
  have hmin : min i (l.length : Int) = (l.length : Int) := min_eq_right h
  have htn : ((l.length : Int)).toNat = l.length := Int.toNat_natCast _
  simp only [spliceRemoveOne]
  rw [if_neg (by omega), hmin, htn, List.take_length,
    List.drop_eq_nil_of_le (by omega)]
  simp

/-- Helper: a filter and its negation partition a list's length. -/
theorem filter_length_partition (p : PendingItem → Bool)
    (l : List PendingItem) :
    (l.filter p).length + (l.filter (fun x => !(p x))).length = l.length := by
  induction l with
  | nil => rfl
  | cons x xs ih => cases hpx : p x <;> simp [List.filter, hpx] <;> omega

/-- Helper: attraction normalization does not touch the fields the
hotel-likeness predicate inspects. -/
theorem isHotelLike_normalizeAttraction (x : Option SearchResult) :
    isHotelLike (normalizeAttraction x) = isHotelLike x := by
  cases x <;> simp [isHotelLike, normalizeAttraction]

/-- C5: an invocation of `handleSaveAllToItinerary` while the Pending Item
Store is empty (and its React mirror in sync with it) fails with the
no-pending-items outcome and issues no network call, neither creation nor
save. -/
theorem C5_saveAll_empty_store_no_network (s : AppState)
    (createResult : Except (Option String) Int) (loadResult : Option Nat)
    (saveResult : Except (Option String) SaveResp)
    (hsync : getPendingItems s.pendingStore = Except.ok s.pendingItems)
    (hempty : getPendingItems s.pendingStore = Except.ok []) :
    (handleSaveAllToItinerary s createResult loadResult saveResult).2.1
        = SaveOutcome.noPendingItems ∧
    (handleSaveAllToItinerary s createResult loadResult saveResult).2.2
        = [] := by
  have h : s.pendingItems = [] := Except.ok.inj (hsync.symm.trans hempty)
  simp [handleSaveAllToItinerary, h]

/-- C5 witness: the empty example state fails with `noPendingItems` and an
empty network log. -/
theorem C5_witness :
    (handleSaveAllToItinerary exampleEmptyState (Except.ok 1) none
        (Except.error none)).2.1 = SaveOutcome.noPendingItems ∧
    (handleSaveAllToItinerary exampleEmptyState (Except.ok 1) none
        (Except.error none)).2.2 = [] :=
  C5_saveAll_empty_store_no_network exampleEmptyState (Except.ok 1) none
    (Except.error none) rfl rfl

/-- C6: any finite sequence of `addPendingItem` calls starting from the
missing store succeeds, and `getPendingItems` afterwards returns exactly
the added items in insertion order — in particular with no deduplication,
since a duplicated input list is returned verbatim. -/
theorem C6_add_list_insertion_order (xs : List PendingItem) :
    ∃ s, addAll PendingStore.absent xs = Except.ok s ∧
      getPendingItems s = Except.ok xs := by
  cases xs with
  | nil => exact ⟨.absent, rfl, rfl⟩
  | cons x rest =>
    refine ⟨.wellFormed (x :: rest), ?_, rfl⟩
    have h1 : addPendingItem PendingStore.absent x
        = Except.ok (PendingStore.wellFormed [x]) := rfl
    simp [addAll, h1, addAll_wellFormed]

/-- C7 counterexample: `splice` interprets a negative index from the end of
the array, so `removePendingItem` at index `-1` on a one-element store
removes that element instead of leaving the sequence unchanged. -/
theorem C7_counterexample :
    removePendingItem (PendingStore.wellFormed [examplePending]) (-1)
        = Except.ok (PendingStore.wellFormed []) ∧
    PendingStore.wellFormed ([] : List PendingItem)
        ≠ PendingStore.wellFormed [examplePending] := by
  exact ⟨rfl, by decide⟩

/-- C7 amended: on a well-formed store `removePendingItem` never raises for
any integer index, and for every index at or beyond the length it leaves
the stored sequence unchanged (negative indices instead count from the end
of the sequence, per JS `splice`). -/
theorem C7_removeAt_out_of_bounds (l : List PendingItem) (i : Int) :
    (∃ s1, removePendingItem (PendingStore.wellFormed l) i = Except.ok s1) ∧
    ((l.length : Int) ≤ i →
      removePendingItem (PendingStore.wellFormed l) i
        = Except.ok (PendingStore.wellFormed l)) := by
  constructor
  · exact ⟨_, rfl⟩
  · intro h
    have hdef : removePendingItem (PendingStore.wellFormed l) i
        = Except.ok (PendingStore.wellFormed (spliceRemoveOne l i)) := rfl
    rw [hdef, spliceRemoveOne_of_length_le l i h]

/-- C7 witness: removing at index 5 from a one-element store is a no-op. -/
theorem C7_witness :
    removePendingItem (PendingStore.wellFormed [examplePending]) 5
        = Except.ok (PendingStore.wellFormed [examplePending]) :=
  (C7_removeAt_out_of_bounds [examplePending] 5).2 (by decide)

/-- C8 counterexample: on a corrupt stored value `JSON.parse` throws and
`getPendingItems` catches nothing, so `list()` fails instead of returning
the empty sequence. -/
theorem C8_counterexample :
    getPendingItems PendingStore.corrupt = Except.error JsError.jsonParse :=
  rfl

/-- C8 amended: `getPendingItems` returns the empty sequence without
failing when the underlying record is missing, returns a well-formed record
verbatim, but raises a parse error on a corrupt (non-deserializable)
record. -/
theorem C8_list_missing_is_empty (l : List PendingItem) :
    getPendingItems PendingStore.absent = Except.ok ([] : List PendingItem) ∧
    getPendingItems (PendingStore.wellFormed l) = Except.ok l ∧
    getPendingItems PendingStore.corrupt = Except.error JsError.jsonParse :=
  ⟨rfl, rfl, rfl⟩

/-- C3 counterexample: on data carrying both a truthy generic price (100)
and a truthy nightly price (120), the payload projection yields the generic
price first, not the nightly price the claimed fallback order predicts. -/
theorem C3_counterexample :
    (buildSavePayload [exampleHotelBoth]).items
        = [{ name := some "Hotel B", price := 100, type := ItemType.hotel }] ∧
    ¬ (buildSavePayload [exampleHotelBoth]).items
        = [{ name := some "Hotel B", price := 120, type := ItemType.hotel }] := by
  decide


/-- C3 amended: for every non-empty pending sequence the payload partitions
the items by type — every flight item's raw data record goes to `flights`,
every other item is projected into `{name, price, type}` where `name` is
the primary name field falling back to the title field and `price` falls
back through the price fields in the order generic price then nightly
price, defaulting to zero if none is truthy — and the spec's concrete
hotel-plus-flight example evaluates exactly as stated. -/
theorem C3_payload_partition (pending : List PendingItem)
    (hne : pending ≠ []) :
    ((buildSavePayload pending).flights.length
        + (buildSavePayload pending).items.length = pending.length) ∧
    (∀ it ∈ pending, it.type = ItemType.flight →
        it.data ∈ (buildSavePayload pending).flights) ∧
    (∀ it ∈ pending, it.type ≠ ItemType.flight →
        projectItem it ∈ (buildSavePayload pending).items) ∧
    (∀ it : PendingItem,
        (strTruthy it.data.name = true →
            (projectItem it).name = it.data.name) ∧
        (strTruthy it.data.name = false →
            (projectItem it).name = it.data.title) ∧
        (intTruthy it.data.price = true →
            some (projectItem it).price = it.data.price) ∧
        (intTruthy it.data.price = false →
            intTruthy it.data.price_per_night = true →
            some (projectItem it).price = it.data.price_per_night) ∧
        (intTruthy it.data.price = false →
            intTruthy it.data.price_per_night = false →
            (projectItem it).price = 0) ∧
        (projectItem it).type = it.type) ∧
    (buildSavePayload [exampleHotelA, exampleFlight]
        = { flights := [exampleFlight.data]
          , items := [{ name := some "Hotel A", price := 120
                      , type := ItemType.hotel }] }) := by
  refine ⟨?_, ?_, ?_, ?_, by decide⟩
  · simpa [buildSavePayload] using
      filter_length_partition (fun it => it.type == ItemType.flight) pending
  · intro it hmem hty
    simp only [buildSavePayload, List.mem_map, List.mem_filter]
    exact ⟨it, ⟨hmem, by simp [hty]⟩, rfl⟩
  · intro it hmem hty
    simp only [buildSavePayload, List.mem_map, List.mem_filter]
    exact ⟨it, ⟨hmem, by simp [hty]⟩, rfl⟩
  · intro it
    refine ⟨?_, ?_, ?_, ?_, ?_, rfl⟩
    · intro h; simp [projectItem, jsOrStr, h]
    · intro h; simp [projectItem, jsOrStr, h]
    · intro h
      cases hp : it.data.price with
      | none => rw [hp] at h; simp [intTruthy] at h
      | some n => rw [hp] at h; simp [projectItem, jsOrInt, hp, h]
    · intro h1 h2
      cases hq : it.data.price_per_night with
      | none => rw [hq] at h2; simp [intTruthy] at h2
      | some n => rw [hq] at h2; simp [projectItem, jsOrInt, h1, hq, h2]
    · intro h1 h2
      cases hq : it.data.price_per_night with
      | none => simp [projectItem, jsOrInt, h1, hq]
      | some n =>
        rw [hq] at h2
        simp [intTruthy] at h2
        simp [projectItem, jsOrInt, h1, hq, h2]

/-- C3 witness: the spec example — one hotel with nightly price 120 and one
flight — produces exactly the stated payload. -/
theorem C3_witness :
    buildSavePayload [exampleHotelA, exampleFlight]
        = { flights := [exampleFlight.data]
          , items := [{ name := some "Hotel A", price := 120
                      , type := ItemType.hotel }] } :=
  (C3_payload_partition [exampleHotelA, exampleFlight] (by decide)).2.2.2.2

/-- C10: payload fallbacks trigger on any falsy value, not only on absent
fields — a non-flight item whose generic price is 0 with nightly price `p`
projects to price `p`, and an item whose name is the empty string takes its
title as payload name. -/
theorem C10_falsy_fallbacks (ty : ItemType) (ts : String)
    (d e : SearchResult) (p : Int) (t : String)
    (hty : ty ≠ ItemType.flight)
    (hdp : d.price = some 0) (hdn : d.price_per_night = some p) (hp : 0 < p)
    (hen : e.name = some "") (het : e.title = some t) :
    (buildSavePayload [{ type := ty, data := d, addedAt := ts }]).items
        = [projectItem { type := ty, data := d, addedAt := ts }] ∧
    (projectItem { type := ty, data := d, addedAt := ts }).price = p ∧
    (projectItem { type := ty, data := e, addedAt := ts }).name = some t := by
  have hbeq : (ty == ItemType.flight) = false := by
    cases ty <;> simp_all
  refine ⟨?_, ?_, ?_⟩
  · simp [buildSavePayload, List.filter, hbeq]
  · simp [projectItem, jsOrInt, intTruthy, hdp, hdn]
  · have hfalsy : strTruthy (some "") = false := by decide
    simp [projectItem, jsOrStr, hen, het, hfalsy]

/-- C10 witness: generic price 0 falls through to nightly price 95, and the
empty-string name falls through to the title. -/
theorem C10_witness :
    (buildSavePayload
        [{ type := ItemType.hotel, data := exampleZeroPrice
         , addedAt := "" }]).items
        = [projectItem { type := ItemType.hotel, data := exampleZeroPrice
                       , addedAt := "" }] ∧
    (projectItem { type := ItemType.hotel, data := exampleZeroPrice
                 , addedAt := "" }).price = 95 ∧
    (projectItem { type := ItemType.hotel, data := exampleEmptyName
                 , addedAt := "" }).name = some "Fallback Title" :=
  C10_falsy_fallbacks ItemType.hotel "" exampleZeroPrice exampleEmptyName
    95 "Fallback Title" (by decide) rfl rfl (by decide) rfl rfl

/-- C9: every record of an attractions response that `isHotelLike`
classifies as hotel-like is excluded from the normalized attraction result
set (the surviving results are all non-hotel-like), and a non-empty server
response that is filtered to nothing sets the dedicated hotels-filtered
notice, which is distinct from the silent empty banner of a zero-result
server response. -/
theorem C9_hotel_like_filtered (raw : List (Option SearchResult)) :
    (∀ x ∈ raw, isHotelLike x = true →
        normalizeAttraction x ∉
          (handleAttractionsSearch (.withAttractions raw)).1) ∧
    (∀ y ∈ (handleAttractionsSearch (.withAttractions raw)).1,
        isHotelLike y = false) ∧
    (raw ≠ [] → (handleAttractionsSearch (.withAttractions raw)).1 = [] →
        (handleAttractionsSearch (.withAttractions raw)).2
          = "Attractions endpoint returned results that appear to be hotels; none shown.") ∧
    (handleAttractionsSearch (.withAttractions [])).2 = "" ∧
    "Attractions endpoint returned results that appear to be hotels; none shown."
        ≠ "" := by
  refine ⟨?_, ?_, ?_, by decide, by decide⟩
  · intro x _ hx hmem
    simp only [handleAttractionsSearch, List.mem_filter] at hmem
    rw [isHotelLike_normalizeAttraction, hx] at hmem
    simp at hmem
  · intro y hy
    simp only [handleAttractionsSearch, List.mem_filter] at hy
    simpa using hy.2
  · intro hraw hfilt
    simp only [handleAttractionsSearch] at hfilt ⊢
    rw [hfilt]
    have hlen : 0 < raw.length := List.length_pos.mpr hraw
    simp [hlen]

/-- C9 witness: a record with a hotel id and a nightly price is hotel-like
and is excluded from the attraction results. -/
theorem C9_witness :
    normalizeAttraction exampleHotelRecord ∉
      (handleAttractionsSearch
        (.withAttractions [exampleHotelRecord])).1 :=
  (C9_hotel_like_filtered [exampleHotelRecord]).1 exampleHotelRecord
    (by decide) (by decide)

/-- C1: whenever a network call fails during `handleSaveAllToItinerary` —
the itinerary-creation call or the item-save call — the operation aborts
without clearing anything: the Pending Item Store and its React mirror
contain exactly the entries they contained before, the last-saved record is
untouched, and the draft context record is never removed. -/
theorem C1_failure_preserves_staged_state (s : AppState)
    (createResult : Except (Option String) Int) (loadResult : Option Nat)
    (saveResult : Except (Option String) SaveResp) (msg : String)
    (h : (handleSaveAllToItinerary s createResult loadResult saveResult).2.1
          = SaveOutcome.createFailed msg ∨
         (handleSaveAllToItinerary s createResult loadResult saveResult).2.1
          = SaveOutcome.saveFailed msg) :
    (handleSaveAllToItinerary s createResult loadResult
        saveResult).1.pendingStore = s.pendingStore ∧
    (handleSaveAllToItinerary s createResult loadResult
        saveResult).1.pendingItems = s.pendingItems ∧
    (handleSaveAllToItinerary s createResult loadResult
        saveResult).1.savedDataStore = s.savedDataStore ∧
    (s.currentItineraryStore.isSome = true →
      (handleSaveAllToItinerary s createResult loadResult
        saveResult).1.currentItineraryStore.isSome = true) := by
  cases hpe : s.pendingItems.length == 0 with
  | true => simp [handleSaveAllToItinerary, hpe] at h
  | false =>
    cases hsel : intTruthy s.selectedItineraryId with
    | true =>
      cases saveResult with
      | error e => simp [handleSaveAllToItinerary, submitSave, hpe, hsel]
      | ok r => simp [handleSaveAllToItinerary, submitSave, hpe, hsel] at h
    | false =>
      cases createResult with
      | error e => simp [handleSaveAllToItinerary, hpe, hsel]
      | ok newId =>
        cases saveResult with
        | error e2 => simp [handleSaveAllToItinerary, submitSave, hpe, hsel]
        | ok r => simp [handleSaveAllToItinerary, submitSave, hpe, hsel] at h

/-- C1 witness: with an itinerary selected and the save call failing, the
pending store, its mirror, the saved record and the draft record all
survive unchanged. -/
theorem C1_witness :
    (handleSaveAllToItinerary exampleStateSel (Except.ok 1) none
        (Except.error none)).1.pendingStore = exampleStateSel.pendingStore ∧
    (handleSaveAllToItinerary exampleStateSel (Except.ok 1) none
        (Except.error none)).1.pendingItems = exampleStateSel.pendingItems ∧
    (handleSaveAllToItinerary exampleStateSel (Except.ok 1) none
        (Except.error none)).1.savedDataStore
        = exampleStateSel.savedDataStore ∧
    (exampleStateSel.currentItineraryStore.isSome = true →
      (handleSaveAllToItinerary exampleStateSel (Except.ok 1) none
        (Except.error none)).1.currentItineraryStore.isSome = true) :=
  C1_failure_preserves_staged_state exampleStateSel (Except.ok 1) none
    (Except.error none) "Failed to save items" (by decide)

/-- C2: an invocation whose save network call succeeds writes the durable
last-saved record — the server's response merged with the target itinerary
id (the response's own id property winning when present, per the spread) —
leaves the Pending Item Store empty, removes the draft context record, and
signals the caller (via the `saved` outcome) to navigate to the target
itinerary's detail view. -/
theorem C2_success_commits (s : AppState)
    (createResult : Except (Option String) Int) (loadResult : Option Nat)
    (r : SaveResp) (id : Int)
    (h : (handleSaveAllToItinerary s createResult loadResult
          (Except.ok r)).2.1 = SaveOutcome.saved id) :
    (handleSaveAllToItinerary s createResult loadResult
        (Except.ok r)).1.savedDataStore = some (mergeSaved id r) ∧
    getPendingItems (handleSaveAllToItinerary s createResult loadResult
        (Except.ok r)).1.pendingStore = Except.ok [] ∧
    (handleSaveAllToItinerary s createResult loadResult
        (Except.ok r)).1.pendingItems = [] ∧
    (handleSaveAllToItinerary s createResult loadResult
        (Except.ok r)).1.currentItineraryStore = none := by
  cases hpe : s.pendingItems.length == 0 with
  | true => simp [handleSaveAllToItinerary, hpe] at h
  | false =>
    cases hsel : intTruthy s.selectedItineraryId with
    | true =>
      have hid : s.selectedItineraryId.getD 0 = id := by
        simpa [handleSaveAllToItinerary, submitSave, hpe, hsel] using h
      simp [handleSaveAllToItinerary, submitSave, hpe, hsel, hid,
        clearPendingItems, getPendingItems]
    | false =>
      cases createResult with
      | error e => simp [handleSaveAllToItinerary, hpe, hsel] at h
      | ok newId =>
        have hid : newId = id := by
          simpa [handleSaveAllToItinerary, submitSave, hpe, hsel] using h
        subst hid
        simp [handleSaveAllToItinerary, submitSave, hpe, hsel,
          clearPendingItems, getPendingItems]

/-- C2 witness: with itinerary 5 selected and the save call succeeding, the
merged record is written, both staging stores are emptied and the draft
record is gone. -/
theorem C2_witness :
    (handleSaveAllToItinerary exampleStateSel (Except.ok 1) none
        (Except.ok { body := "resp" })).1.savedDataStore
        = some (mergeSaved 5 { body := "resp" }) ∧
    getPendingItems (handleSaveAllToItinerary exampleStateSel (Except.ok 1)
        none (Except.ok { body := "resp" })).1.pendingStore
        = Except.ok [] ∧
    (handleSaveAllToItinerary exampleStateSel (Except.ok 1) none
        (Except.ok { body := "resp" })).1.pendingItems = [] ∧
    (handleSaveAllToItinerary exampleStateSel (Except.ok 1) none
        (Except.ok { body := "resp" })).1.currentItineraryStore = none :=
  C2_success_commits exampleStateSel (Except.ok 1) none { body := "resp" } 5
    (by decide)

/-- C4: with no itinerary selected and a non-empty stage, itinerary
creation is the first network call issued — through the from-dates endpoint
(carrying the draft's dates and its optional title) when the draft context
holds truthy departure and return dates, through the empty-itinerary
endpoint otherwise — and on successful creation the returned itinerary id
becomes the target of the issued save call. -/
theorem C4_target_resolution (s : AppState)
    (createResult : Except (Option String) Int) (loadResult : Option Nat)
    (saveResult : Except (Option String) SaveResp) (d : CurrentItinerary)
    (hne : s.pendingItems ≠ [])
    (hsel : s.selectedItineraryId = none) :
    ((s.currentItineraryStore = some d → strTruthy d.departure_date = true →
        strTruthy d.return_date = true →
        ((handleSaveAllToItinerary s createResult loadResult
            saveResult).2.2).head?
          = some (NetCall.createFromFlights d.departure_date d.return_date
              (jsOrStr d.title none)))) ∧
    ((s.currentItineraryStore = none ∨
        (s.currentItineraryStore = some d ∧
          (strTruthy d.departure_date && strTruthy d.return_date) = false)) →
      ((handleSaveAllToItinerary s createResult loadResult
          saveResult).2.2).head? = some NetCall.createEmpty) ∧
    (∀ newId, createResult = Except.ok newId →
      NetCall.save newId (buildSavePayload s.pendingItems)
        ∈ (handleSaveAllToItinerary s createResult loadResult
            saveResult).2.2) := by
  have hpe : (s.pendingItems.length == 0) = false := by
    rw [beq_eq_false_iff_ne]
    exact fun hc => hne (List.length_eq_zero.mp hc)
  have hself : intTruthy s.selectedItineraryId = false := by
    rw [hsel]; rfl
  refine ⟨?_, ?_, ?_⟩
  · intro hd h1 h2
    cases createResult with
    | error e =>
      simp [handleSaveAllToItinerary, hpe, hself, hd, h1, h2]
    | ok newId =>
      cases saveResult with
      | error e2 =>
        simp [handleSaveAllToItinerary, submitSave, hpe, hself, hd, h1, h2]
      | ok r =>
        simp [handleSaveAllToItinerary, submitSave, hpe, hself, hd, h1, h2]
  · intro hcase
    rcases hcase with hnone | ⟨hd, hff⟩
    · cases createResult with
      | error e =>
        simp [handleSaveAllToItinerary, hpe, hself, hnone]
      | ok newId =>
        cases saveResult with
        | error e2 =>
          simp [handleSaveAllToItinerary, submitSave, hpe, hself, hnone]
        | ok r =>
          simp [handleSaveAllToItinerary, submitSave, hpe, hself, hnone]
    · cases createResult with
      | error e =>
        simp [handleSaveAllToItinerary, hpe, hself, hd, hff]
      | ok newId =>
        cases saveResult with
        | error e2 =>
          simp [handleSaveAllToItinerary, submitSave, hpe, hself, hd, hff]
        | ok r =>
          simp [handleSaveAllToItinerary, submitSave, hpe, hself, hd, hff]
  · intro newId hcr
    subst hcr
    cases saveResult with
    | error e2 =>
      simp [handleSaveAllToItinerary, submitSave, hpe, hself]
    | ok r =>
      simp [handleSaveAllToItinerary, submitSave, hpe, hself]

/-- C4 witness: for the example state (no selection, draft carrying both
dates and a title), the first issued network call is creation from the
draft's dates with its title. -/
theorem C4_witness :
    ((handleSaveAllToItinerary exampleState (Except.ok 7) (some 1)
        (Except.ok { body := "resp" })).2.2).head?
      = some (NetCall.createFromFlights exampleDraft.departure_date
          exampleDraft.return_date (jsOrStr exampleDraft.title none)) :=
  (C4_target_resolution exampleState (Except.ok 7) (some 1)
      (Except.ok { body := "resp" }) exampleDraft (by decide) rfl).1
    rfl (by decide) (by decide)

end PlanIt
